import Mathlib

set_option maxRecDepth 40000

/-!
Verification of the caching / concurrent-fetch layer of an openFDA
dashboard, shallowly embedded from `src/data_utils.py`.

Modelling conventions:
* Wall-clock times are naturals (whole seconds); the code's `time.time()`
  floats are monotone reals, and every comparison the code makes survives
  the restriction to naturals used in the concrete traces below.
* A JSON payload is modelled by the two projections the layer inspects:
  the optional `"error"` entry and the optional `"results"` array
  (records themselves are opaque and modelled as naturals).  `error = none`
  means the object has no `"error"` key at all, likewise for `results`.
* Query parameter dictionaries are association lists in insertion order
  with (in the code's usage) pairwise-distinct keys; all values are
  strings, as in every call site of the repository.
* Blocking reads of the shared `response_queue` are driven by an explicit
  trace of queue events: either an item `(key, data)` that `get` returns
  after `d` seconds, or a read that waits out the full 30-second timeout
  and raises `queue.Empty`.  Exhausting the trace means the loop is still
  running (result `none`).
-/

namespace OpenFDA

/-- JSON payload restricted to the fields `data_utils.py` inspects:
`error` is the `"error"` entry when present, `results` the `"results"`
array when present (records opaque, as naturals). -/
structure Payload where
  error : Option String
  results : Option (List Nat)
  deriving DecidableEq, Repr

/-- Query parameters: an association list of string keys and values in
insertion order, mirroring a Python `dict` of strings. -/
abbrev Params := List (String × String)

/-- Python `d[k] = v`: overwrite in place when `k` is present (Python
dicts keep the key's position), append otherwise. -/
def dict_set (l : Params) (k v : String) : Params :=
  if l.any (fun p => p.1 == k) then
    l.map (fun p => if p.1 == k then (k, v) else p)
  else
    l ++ [(k, v)]

/-- Cache TTL constant from `data_utils.py` (`CACHE_TTL = 3600`). -/
def CACHE_TTL : Nat := 3600

/-- The module-level cache: `cache_data` and `cache_timestamps`, the two
dicts of `data_utils.py`, as association lists (later bindings shadow
earlier ones, so `List.lookup` sees exactly the dict's current value). -/
structure CacheState where
  cache_data : List (String × Payload)
  cache_timestamps : List (String × Nat)
  deriving DecidableEq, Repr

/-- Dict assignment on both cache dicts at once, as performed by lines
128-129 of `data_utils.py` (`cache_data[cache_key] = data;
cache_timestamps[cache_key] = now`). -/
def cache_put (st : CacheState) (key : String) (v : Payload) (t : Nat) : CacheState :=
  ⟨(key, v) :: st.cache_data, (key, t) :: st.cache_timestamps⟩

/-- The freshness lookup of `fetch_with_cache` lines 113-117: the value is
returned only when the key is present in `cache_data` and
`now - cache_timestamps.get(key, 0) < CACHE_TTL`. -/
def cache_get (st : CacheState) (key : String) (now : Nat) : Option Payload :=
  match st.cache_data.lookup key with
  | some v =>
      if now - ((st.cache_timestamps.lookup key).getD 0) < CACHE_TTL then some v else none
  | none => none

/-- One call to `APIRateLimiter.wait_if_needed` (lines 39-55), which runs
entirely under the instance lock.  Input: the configured ceiling, the
current `request_times` list and the wall-clock time `now` at lock
acquisition.  Output: the new `request_times` list and the time at which
the call returns (lock release).  Natural subtraction makes
`60 - (now - oldest)` exactly the code's `max(wait_time, 0)` sleep. -/
def wait_if_needed (requests_per_min : Nat) (request_times : List Nat) (now : Nat) :
    List Nat × Nat :=
  let pruned := request_times.filter (fun t => decide (now - t < 60))
  if requests_per_min ≤ pruned.length then
    let oldest := pruned.headD 0
    let wait := 60 - (now - oldest)
    (pruned ++ [now], now + wait)
  else
    (pruned ++ [now], now)

/-- Modelled from the spec's words for comparison with `wait_if_needed`:
identical prune, check and sleep, but "append the current timestamp
(post-sleep) to the window" — the appended timestamp is the time after
sleeping, not the time recorded at lock acquisition. -/
def wait_if_needed_spec (requests_per_min : Nat) (request_times : List Nat) (now : Nat) :
    List Nat × Nat :=
  let pruned := request_times.filter (fun t => decide (now - t < 60))
  if requests_per_min ≤ pruned.length then
    let oldest := pruned.headD 0
    let wait := 60 - (now - oldest)
    (pruned ++ [now + wait], now + wait)
  else
    (pruned ++ [now], now)

/-- Serialized sequence of limiter calls (the lock serializes them):
given the ceiling, the current window and the list of lock-acquisition
times, produce the list of completion (return) times. -/
def run_limiter (R : Nat) : List Nat → List Nat → List Nat
  | _, [] => []
  | w, now :: rest =>
      (wait_if_needed R w now).2 :: run_limiter R (wait_if_needed R w now).1 rest

/-- Validity of a lock-acquisition trace: the lock is held across the
sleep, so each acquisition time must be at or after the previous call's
return time. -/
def acq_valid (R : Nat) : List Nat → Nat → List Nat → Bool
  | _, _, [] => true
  | w, prev, now :: rest =>
      decide (prev ≤ now) &&
        acq_valid R (wait_if_needed R w now).1 (wait_if_needed R w now).2 rest

/-- Number of the given timestamps falling in the 60-second window
starting at `a`. -/
def window_count (times : List Nat) (a : Nat) : Nat :=
  times.countP (fun t => decide (a ≤ t) && decide (t < a + 60))

/-- Ordering of parameter pairs by key, the order `json.dumps(params,
sort_keys=True)` serializes a dict in (both orders compare keys as
sequences of code points). -/
def keyLe (a b : String × String) : Prop := a.1 ≤ b.1

instance : DecidableRel keyLe := fun a b => inferInstanceAs (Decidable (a.1 ≤ b.1))

instance : IsTotal (String × String) keyLe := ⟨fun a b => le_total a.1 b.1⟩

instance : IsTrans (String × String) keyLe := ⟨fun _ _ _ h h' => le_trans h h'⟩

/-- Strict version of `keyLe`, used to identify the sorted serializations
of two permuted dictionaries with distinct keys. -/
def keyLt (a b : String × String) : Prop := a.1 < b.1

instance : IsAntisymm (String × String) keyLt := ⟨fun _ _ h h' => (lt_asymm h h').elim⟩

/-- JSON text of one `"key": "value"` member. -/
def member_str (p : String × String) : String :=
  "\"" ++ p.1 ++ "\": \"" ++ p.2 ++ "\""

/-- The string `json.dumps` produces for a dict whose members are already
listed in sorted key order (default separators: comma-space and
colon-space). -/
def dumps_sorted (l : Params) : String :=
  "\x7b" ++ String.intercalate ", " (l.map member_str) ++ "\x7d"

/-- Cache key construction of `fetch_with_cache` lines 107-109:
`params_str = json.dumps(params, sort_keys=True) if params else ""` and
`cache_key = f"{endpoint}_{params_str}"`.  An empty (or absent) dict is
falsy, so it serializes to the empty string. -/
def cache_key (endpoint : String) (params : Params) : String :=
  let params_str := if params.isEmpty then "" else dumps_sorted (List.insertionSort keyLe params)
  endpoint ++ "_" ++ params_str

/-- One observed read of the shared `response_queue` by the gateway's
wait loop. -/
inductive QEvent where
  /-- The read returns the pair `(key, data)` after `d` seconds of
  blocking (`d ≤ 30` in any trace the real queue can produce). -/
  | item (key : String) (data : Payload) (d : Nat)
  /-- The read blocks for the full 30-second timeout and raises
  `queue.Empty`. -/
  | timeout
  deriving DecidableEq, Repr

/-- Error payload returned by `fetch_with_cache` when a read raises
`queue.Empty` (line 138). -/
def TIMEOUT_ERROR : Payload := ⟨some "Timeout waiting for response", none⟩

/-- The gateway wait loop, lines 123-138 of `data_utils.py`, driven by a
trace of queue reads.  `key` is the cache key being waited for, `now` the
time recorded at line 112 (used for the cache timestamp), `st` the cache,
and the final argument the elapsed seconds so far.  On a matching item
the payload is cached (lines 128-129) and returned; on `queue.Empty` the
timeout error is returned without caching; a non-matching item is put
back and the loop continues (the requeued item may reappear later in the
trace).  `none` means the trace ended with the loop still running. -/
def response_wait (key : String) (now : Nat) (st : CacheState) :
    List QEvent → Nat → Option (Payload × CacheState × Nat)
  | [], _ => none
  | QEvent.timeout :: _, t => some (TIMEOUT_ERROR, st, t + 30)
  | QEvent.item k d dt :: rest, t =>
      if k = key then some (d, cache_put st key d now, t + dt)
      else response_wait key now st rest (t + dt)

/-- The public gateway `fetch_with_cache` (lines 105-138).  Returns the
payload, the cache state after the call, the elapsed time, and whether
the call enqueued an upstream request (`false` on a cache hit). -/
def fetch_with_cache (st : CacheState) (endpoint : String) (params : Params)
    (force_refresh : Bool) (now : Nat) (events : List QEvent) :
    Option (Payload × CacheState × Nat × Bool) :=
  let key := cache_key endpoint params
  match (if force_refresh then none else cache_get st key now) with
  | some v => some (v, st, 0, false)
  | none => (response_wait key now st events 0).map (fun r => (r.1, r.2.1, r.2.2, true))

/-- Outcome of one HTTP attempt as seen inside the worker's inner `try`
(lines 73-88): either `requests.get` itself raises (transport error), or
a response with a status code arrives whose body either decodes to a
JSON object or fails to decode. -/
inductive HttpOutcome where
  | netError (msg : String)
  | response (status : Nat) (body : Except String Payload)
  deriving Repr

/-- The payload the worker pushes onto `response_queue` for one task
(lines 73-88): `raise_for_status()` raises for any 4xx/5xx status, any
exception is caught and replaced by `{"error": str(e)}`, and a decoded
2xx body is pushed through unchanged. -/
def worker_result : HttpOutcome → Payload
  | HttpOutcome.netError msg => ⟨some msg, none⟩
  | HttpOutcome.response status body =>
      if 400 ≤ status then ⟨some ("HTTP error " ++ toString status), none⟩
      else
        match body with
        | Except.error msg => ⟨some msg, none⟩
        | Except.ok j => j

/-- The uniform check every caller applies to a gateway payload
(lines 154, 175, 193): the data is used only when there is no `"error"`
key, a `"results"` key is present, and the results list is non-empty. -/
def usable (d : Payload) : Bool :=
  d.error.isNone &&
    match d.results with
    | some (_ :: _) => true
    | _ => false

/-- The four error kinds named by the error-taxonomy claim:
network/transport error, non-2xx status, a JSON body containing an
`error` field, and a JSON body missing the expected `results` field. -/
def err_kind : HttpOutcome → Prop
  | HttpOutcome.netError _ => True
  | HttpOutcome.response status body =>
      400 ≤ status ∨ ∃ j, body = Except.ok j ∧ (j.error.isSome = true ∨ j.results = none)

/-- Caller-visible effect of the worker's API-key injection (lines
75-78) on the params dict it received: with no key configured the dict
is untouched; with a key configured, a falsy (`None` or empty) dict is
replaced by a fresh local dict, leaving the caller's dict untouched,
while a non-empty dict is mutated in place. -/
def inject_api_key (api_key : String) (params : Params) : Params :=
  if api_key = "" then params
  else if params = [] then params
  else dict_set params "api_key" api_key

/-- The pagination loop body of `fetch_all_pages` (lines 149-162), with
the gateway abstracted into a pure oracle `gw` from the params as sent to
the payload returned.  The fuel bounds the iteration count (each
continuing iteration appends at least one record, so `max_records + 1`
units never run out).  Also accumulates, for each page, the params dict
as it stood when `fetch_with_cache` computed that page's cache key. -/
def fetch_pages_go (gw : Params → Payload) (api_key : String) (max_records limit : Nat) :
    Nat → Nat → Params → List Nat → List Params → List Nat × List Params
  | 0, _, _, acc, calls => (acc, calls)
  | fuel + 1, skip, cur, acc, calls =>
      if max_records ≤ acc.length then (acc, calls)
      else
        let sent := dict_set cur "skip" (toString skip)
        let data := gw sent
        let calls' := calls ++ [sent]
        let cur' := inject_api_key api_key sent
        match data.error, data.results with
        | some _, _ => (acc, calls')
        | none, none => (acc, calls')
        | none, some [] => (acc, calls')
        | none, some (r :: rs) =>
            let acc' := acc ++ (r :: rs)
            if (r :: rs).length < limit then (acc', calls')
            else fetch_pages_go gw api_key max_records limit fuel
              (skip + (r :: rs).length) cur' acc' calls'

/-- The paged fetch `fetch_all_pages` (lines 140-164): `limit =
min(100, max_records)` is written into the params only when the caller
did not supply one; pages advance by the number of records received; the
result is truncated to `max_records`.  Returns the accumulated records
and the per-page params traces. -/
def fetch_all_pages (gw : Params → Payload) (api_key : String) (params : Params)
    (max_records : Nat) : List Nat × List Params :=
  let limit := min 100 max_records
  let current :=
    if params.any (fun p => p.1 == "limit") then params
    else dict_set params "limit" (toString limit)
  let r := fetch_pages_go gw api_key max_records limit (max_records + 1) 0 current [] []
  (r.1.take max_records, r.2)

/-- Upstream oracle that answers every page with exactly 100 records. -/
def gw_pages100 : Params → Payload := fun _ => ⟨none, some (List.range 100)⟩

/-- Upstream oracle that answers the first page (`skip = 0`) with 100
records and every later page with an empty result list. -/
def gw_empty_page2 : Params → Payload := fun p =>
  if p.lookup "skip" = some "0" then ⟨none, some (List.range 100)⟩ else ⟨none, some []⟩

/-- Upstream oracle that answers every request with an error payload. -/
def gw_error : Params → Payload := fun _ => ⟨some "boom", none⟩

/-- Predicate on a queue event: an item carrying a different cache key
(the requeue-on-mismatch case of the gateway's wait loop). -/
def other_item (key : String) : QEvent → Prop
  | QEvent.item k _ _ => k ≠ key
  | QEvent.timeout => False

/-- Total seconds the wait loop spends performing the given queue
reads. -/
def elapsed_sum : List QEvent → Nat
  | [] => 0
  | QEvent.item _ _ d :: rest => d + elapsed_sum rest
  | QEvent.timeout :: rest => 30 + elapsed_sum rest

/-! Helper lemmas shared by several claim theorems. -/

theorem lookup_map_replace (k v k' : String) (l : Params) :
    (l.map (fun p => if p.1 == k then (k, v) else p)).lookup k' =
      if k' = k then (l.lookup k).map (fun _ => v) else l.lookup k' := by
  induction l with
  | nil => by_cases h : k' = k <;> simp [h]
  | cons q rest ih =>
      obtain ⟨a, b⟩ := q
      simp only [beq_iff_eq] at ih
      simp only [List.map_cons]
      by_cases ha : (a == k) = true
      · rw [if_pos ha]
        have ha' : a = k := by simpa using ha
        subst ha'
        by_cases hk' : k' = a
        · subst hk'; simp [List.lookup, ih]
        · simp [List.lookup, beq_false_of_ne hk', ih, hk']
      · rw [if_neg ha]
        have ha' : ¬a = k := by simpa using ha
        by_cases hk' : k' = k
        · subst hk'
          simp [List.lookup, beq_false_of_ne (Ne.symm ha'), ih]
        · cases hc : k' == a with
          | true => simp [List.lookup, hc, hk']
          | false => simp [List.lookup, hc, ih, hk']

theorem lookup_append_single (k v k' : String) (l : Params) :
    (l ++ [(k, v)]).lookup k' =
      match l.lookup k' with
      | some w => some w
      | none => if k' = k then some v else none := by
  induction l with
  | nil =>
      by_cases h : k' = k
      · subst h; simp [List.lookup]
      · simp [List.lookup, beq_false_of_ne h, h]
  | cons q rest ih =>
      obtain ⟨a, b⟩ := q
      cases hc : k' == a with
      | true => simp [List.lookup, hc]
      | false => simp [List.lookup, hc, ih]

theorem any_key_eq_lookup_isSome (k : String) (l : Params) :
    l.any (fun p => p.1 == k) = (l.lookup k).isSome := by
  induction l with
  | nil => simp
  | cons q rest ih =>
      obtain ⟨a, b⟩ := q
      cases ha : a == k with
      | true =>
          have ha' : a = k := by simpa using ha
          subst ha'
          simp [List.lookup]
      | false =>
          have ha' : ¬a = k := by simpa using ha
          simp [List.lookup, ha, beq_false_of_ne (Ne.symm ha'), ih]

theorem lookup_dict_set (l : Params) (k v k' : String) :
    (dict_set l k v).lookup k' = if k' = k then some v else l.lookup k' := by
  unfold dict_set
  by_cases hany : l.any (fun p => p.1 == k) = true
  · rw [if_pos hany, lookup_map_replace]
    by_cases hk' : k' = k
    · subst hk'
      rw [any_key_eq_lookup_isSome] at hany
      obtain ⟨w, hw⟩ := Option.isSome_iff_exists.mp hany
      simp [hw]
    · simp [hk']
  · rw [if_neg hany, lookup_append_single]
    by_cases hk' : k' = k
    · subst hk'
      rw [any_key_eq_lookup_isSome] at hany
      have : l.lookup k' = none := by
        cases h : l.lookup k' with
        | none => rfl
        | some w => exact absurd (by simp [h]) hany
      simp [this]
    · cases h : l.lookup k' <;> simp [hk']

theorem response_wait_skip (key : String) (now : Nat) (st : CacheState)
    (pre l : List QEvent) (h : ∀ e ∈ pre, other_item key e) (t : Nat) :
    response_wait key now st (pre ++ l) t =
      response_wait key now st l (t + elapsed_sum pre) := by
  induction pre generalizing t with
  | nil => simp [elapsed_sum]
  | cons e rest ih =>
      cases e with
      | item k d dt =>
          have hk : ¬(k = key) := h _ (List.mem_cons_self _ _)
          have ih' := ih (fun e he => h e (List.mem_cons_of_mem _ he)) (t + dt)
          simp only [List.cons_append, response_wait, if_neg hk, elapsed_sum]
          exact ih'.trans
            (congrArg (response_wait key now st l) (Nat.add_assoc t dt (elapsed_sum rest)))
      | timeout => exact (h _ (List.mem_cons_self _ _)).elim

theorem response_wait_all_other (key : String) (now : Nat) (st : CacheState)
    (events : List QEvent) (h : ∀ e ∈ events, other_item key e) (t : Nat) :
    response_wait key now st events t = none := by
  have hs := response_wait_skip key now st events [] h t
  simpa [response_wait] using hs

theorem cache_get_put (st : CacheState) (key : String) (v : Payload) (t0 t : Nat) :
    cache_get (cache_put st key v t0) key (t0 + t) =
      if t < CACHE_TTL then some v else none := by
  simp [cache_get, cache_put, List.lookup, Nat.add_sub_cancel_left]

theorem sorted_keyLt_insertionSort (l : Params) (h : (l.map Prod.fst).Nodup) :
    (List.insertionSort keyLe l).Sorted keyLt := by
  have hle : (List.insertionSort keyLe l).Sorted keyLe := List.sorted_insertionSort keyLe l
  have hperm : (List.insertionSort keyLe l).Perm l := List.perm_insertionSort keyLe l
  have hnd : ((List.insertionSort keyLe l).map Prod.fst).Nodup :=
    ((hperm.map Prod.fst).nodup_iff).mpr h
  have hne : (List.insertionSort keyLe l).Pairwise (fun a b => a.1 ≠ b.1) :=
    List.pairwise_map.mp hnd
  exact (hle.and hne).imp (fun hab => lt_of_le_of_ne hab.1 hab.2)

theorem inject_api_key_no_key (q : Params) : inject_api_key "" q = q := by
  simp [inject_api_key]

theorem fetch_pages_limit_invariant (gw : Params → Payload) (max_records limit : Nat)
    (L : String) :
    ∀ (fuel skip : Nat) (cur : Params) (acc : List Nat) (calls : List Params),
      cur.lookup "limit" = some L →
      (∀ p ∈ calls, p.lookup "limit" = some L) →
      ∀ p ∈ (fetch_pages_go gw "" max_records limit fuel skip cur acc calls).2,
        p.lookup "limit" = some L := by
  intro fuel
  induction fuel with
  | zero =>
      intro skip cur acc calls hcur hcalls p hp
      exact hcalls p hp
  | succ n ih =>
      intro skip cur acc calls hcur hcalls p hp
      have hsentl : (dict_set cur "skip" (toString skip)).lookup "limit" = some L := by
        rw [lookup_dict_set]
        simpa using hcur
      have hcalls' : ∀ q ∈ calls ++ [dict_set cur "skip" (toString skip)],
          q.lookup "limit" = some L := by
        intro q hq
        rcases List.mem_append.mp hq with hql | hqr
        · exact hcalls q hql
        · simp only [List.mem_singleton] at hqr
          subst hqr
          exact hsentl
      simp only [fetch_pages_go] at hp
      by_cases hstop : max_records ≤ acc.length
      · rw [if_pos hstop] at hp
        exact hcalls p hp
      · rw [if_neg hstop] at hp
        rw [inject_api_key_no_key] at hp
        split at hp
        · exact hcalls' p hp
        · exact hcalls' p hp
        · exact hcalls' p hp
        · split at hp
          · exact hcalls' p hp
          · exact ih _ _ _ _ hsentl hcalls' p hp

/-! Claim theorems. -/

/-- C6 counterexample: with a ceiling of 1 request/minute and the
serialized (lock-valid) lock-acquisition trace 0, 1, 61, the completion
times are 0, 60 and 61, and the trailing 60-second window starting at 31
contains two completions — more than the ceiling.  The violation exists
because line 55 appends the pre-sleep timestamp `now` (here 1), which
ages out of the window during the sleep it itself caused. -/
theorem C6_counterexample :
    acq_valid 1 [] 0 [0, 1, 61] = true
    ∧ run_limiter 1 [] [0, 1, 61] = [0, 60, 61]
    ∧ 1 < window_count (run_limiter 1 [] [0, 1, 61]) 31 := by
  decide

/-- C6 amended: `wait_if_needed` can only delay, never fail — every call
returns, no earlier than its lock-acquisition time and no more than 60
seconds later — but the claimed sliding-window bound on completion
timestamps does not hold (see the counterexample), because the timestamp
appended to the window is the pre-sleep acquisition time. -/
theorem C6_amended (R : Nat) (w : List Nat) (now : Nat) :
    now ≤ (wait_if_needed R w now).2 ∧ (wait_if_needed R w now).2 ≤ now + 60 := by
  unfold wait_if_needed
  dsimp only
  split <;> omega

/-- C7 counterexample: with ceiling 1, window `[0]` and `now = 1`, the
code sleeps 59 seconds (returning at 60) but appends the pre-sleep
timestamp 1, whereas the claim's step (modelled by `wait_if_needed_spec`)
appends the post-sleep timestamp 60. -/
theorem C7_counterexample :
    wait_if_needed 1 [0] 1 = ([0, 1], 60)
    ∧ wait_if_needed_spec 1 [0] 1 = ([0, 60], 60)
    ∧ wait_if_needed 1 [0] 1 ≠ wait_if_needed_spec 1 [0] 1 := by
  decide

/-- C7 amended: on every call the limiter drops timestamps older than
`now - 60`, sleeps `max (60 - (now - oldest)) 0` exactly as the claim
says (the pruned window and the return time agree with the claim's
step), but the timestamp it appends is the one recorded before sleeping
(`now` at lock acquisition), not the post-sleep time. -/
theorem C7_amended (R : Nat) (w : List Nat) (now : Nat) :
    (wait_if_needed R w now).1.dropLast = (wait_if_needed_spec R w now).1.dropLast
    ∧ (wait_if_needed R w now).2 = (wait_if_needed_spec R w now).2
    ∧ (wait_if_needed R w now).1.getLast? = some now := by
  unfold wait_if_needed wait_if_needed_spec
  dsimp only
  by_cases h : R ≤ (w.filter (fun t => decide (now - t < 60))).length
  · simp [h, List.dropLast_concat, List.getLast?_concat]
  · simp [h, List.dropLast_concat, List.getLast?_concat]

/-- C3: the cache lookup performed by `fetch_with_cache` returns the
stored value unchanged at every time `t0 + t` with `t < CACHE_TTL` after
the store wrote it at `t0`, and behaves as absent once `t ≥ CACHE_TTL`. -/
theorem C3_cache_get_ttl (st : CacheState) (key : String) (v : Payload) (t0 t : Nat) :
    cache_get (cache_put st key v t0) key (t0 + t) =
      if t < CACHE_TTL then some v else none :=
  cache_get_put st key v t0 t

/-- C9: the cache key is a deterministic function of the endpoint and
the set of parameter key/value pairs — two parameter dictionaries with
the same pairs (in any insertion order, keys distinct as in a dict)
produce the same key string. -/
theorem C9_cache_key_deterministic (endpoint : String) (l₁ l₂ : Params)
    (hp : l₁.Perm l₂) (hn : (l₁.map Prod.fst).Nodup) :
    cache_key endpoint l₁ = cache_key endpoint l₂ := by
  have hsort : List.insertionSort keyLe l₁ = List.insertionSort keyLe l₂ :=
    List.eq_of_perm_of_sorted (r := keyLt)
      ((List.perm_insertionSort keyLe l₁).trans
        (hp.trans (List.perm_insertionSort keyLe l₂).symm))
      (sorted_keyLt_insertionSort l₁ hn)
      (sorted_keyLt_insertionSort l₂ (((hp.map Prod.fst).nodup_iff).mp hn))
  have hlen := hp.length_eq
  have hempty : l₁.isEmpty = l₂.isEmpty := by
    cases l₁ <;> cases l₂ <;> simp_all
  simp only [cache_key]
  rw [hempty, hsort]

/-- C9 witness: two concrete two-entry dictionaries differing only in
insertion order produce the same cache key. -/
theorem C9_witness :
    (([("b", "2"), ("a", "1")] : Params).Perm [("a", "1"), ("b", "2")])
    ∧ ((([("b", "2"), ("a", "1")] : Params).map Prod.fst).Nodup)
    ∧ cache_key "drug/event.json" [("b", "2"), ("a", "1")] =
        cache_key "drug/event.json" [("a", "1"), ("b", "2")] :=
  ⟨List.Perm.swap _ _ _, by decide,
    C9_cache_key_deterministic "drug/event.json" _ _ (List.Perm.swap _ _ _) (by decide)⟩

/-- C1 counterexample: a fetch whose worker answers with an error-shaped
payload (as a simulated upstream 500 produces) stores that payload in
the cache (lines 127-129 cache whatever matched, error or not), and an
immediate second fetch for the same key is a cache hit returning the
stored error with no new upstream attempt (the `true`/`false` flag
records whether the call enqueued a request). -/
theorem C1_counterexample :
    fetch_with_cache ⟨[], []⟩ "e" [] false 0
        [QEvent.item "e_" ⟨some "500 Server Error", none⟩ 1] =
      some (⟨some "500 Server Error", none⟩,
        ⟨[("e_", ⟨some "500 Server Error", none⟩)], [("e_", 0)]⟩, 1, true)
    ∧ (⟨[("e_", ⟨some "500 Server Error", none⟩)], [("e_", 0)]⟩ :
        CacheState).cache_data.lookup "e_" = some ⟨some "500 Server Error", none⟩
    ∧ fetch_with_cache ⟨[("e_", ⟨some "500 Server Error", none⟩)], [("e_", 0)]⟩
        "e" [] false 1 [] =
      some (⟨some "500 Server Error", none⟩,
        ⟨[("e_", ⟨some "500 Server Error", none⟩)], [("e_", 0)]⟩, 0, false) := by
  decide

/-- C1 amended: a fetch that fails with a worker-produced error payload
does populate the cache with that payload, and an immediately following
fetch for the same key within the TTL returns the cached error from the
cache without a new upstream attempt; only the gateway-timeout error
path returns without populating the cache. -/
theorem C1_amended (st : CacheState) (endpoint : String) (params : Params)
    (now dt t : Nat) (msg : String)
    (hmiss : cache_get st (cache_key endpoint params) now = none)
    (ht : t < CACHE_TTL) :
    fetch_with_cache st endpoint params false now
        [QEvent.item (cache_key endpoint params) ⟨some msg, none⟩ dt] =
      some (⟨some msg, none⟩,
        cache_put st (cache_key endpoint params) ⟨some msg, none⟩ now, dt, true)
    ∧ (cache_put st (cache_key endpoint params) ⟨some msg, none⟩ now).cache_data.lookup
        (cache_key endpoint params) = some ⟨some msg, none⟩
    ∧ fetch_with_cache (cache_put st (cache_key endpoint params) ⟨some msg, none⟩ now)
        endpoint params false (now + t) [] =
      some (⟨some msg, none⟩,
        cache_put st (cache_key endpoint params) ⟨some msg, none⟩ now, 0, false)
    ∧ fetch_with_cache st endpoint params false now [QEvent.timeout] =
      some (TIMEOUT_ERROR, st, 30, true) := by
  refine ⟨?_, ?_, ?_, ?_⟩
  · simp [fetch_with_cache, hmiss, response_wait]
  · simp [cache_put, List.lookup]
  · have hget := cache_get_put st (cache_key endpoint params) ⟨some msg, none⟩ now t
    simp [fetch_with_cache, hget, ht]
  · simp [fetch_with_cache, hmiss, response_wait]

/-- C1 witness: the amended statement at a concrete miss state, key and
times. -/
theorem C1_witness :
    fetch_with_cache ⟨[], []⟩ "drug/event.json" [] false 0
        [QEvent.item (cache_key "drug/event.json" []) ⟨some "boom", none⟩ 2] =
      some (⟨some "boom", none⟩,
        cache_put ⟨[], []⟩ (cache_key "drug/event.json" []) ⟨some "boom", none⟩ 0, 2, true)
    ∧ (cache_put ⟨[], []⟩ (cache_key "drug/event.json" [])
        ⟨some "boom", none⟩ 0).cache_data.lookup (cache_key "drug/event.json" []) =
        some ⟨some "boom", none⟩
    ∧ fetch_with_cache
        (cache_put ⟨[], []⟩ (cache_key "drug/event.json" []) ⟨some "boom", none⟩ 0)
        "drug/event.json" [] false (0 + 1) [] =
      some (⟨some "boom", none⟩,
        cache_put ⟨[], []⟩ (cache_key "drug/event.json" []) ⟨some "boom", none⟩ 0, 0, false)
    ∧ fetch_with_cache ⟨[], []⟩ "drug/event.json" [] false 0 [QEvent.timeout] =
      some (TIMEOUT_ERROR, ⟨[], []⟩, 30, true) :=
  C1_amended ⟨[], []⟩ "drug/event.json" [] 0 2 1 "boom" (by decide) (by decide)

/-- C2 counterexample: a fetch dispatched with `now = 0` whose matching
response is consumed after 5 seconds of blocking (arrival time 5) stores
`stored_at = 0` — the time at which the cache was checked and the request
dispatched, not the response's arrival time. -/
theorem C2_counterexample :
    fetch_with_cache ⟨[], []⟩ "e" [] false 0 [QEvent.item "e_" ⟨none, some [1]⟩ 5] =
      some (⟨none, some [1]⟩, ⟨[("e_", ⟨none, some [1]⟩)], [("e_", 0)]⟩, 5, true)
    ∧ (⟨[("e_", ⟨none, some [1]⟩)], [("e_", 0)]⟩ :
        CacheState).cache_timestamps.lookup "e_" = some 0
    ∧ (0 : Nat) ≠ 0 + 5 := by
  decide

/-- C2 amended: the stored timestamp of every cache entry written by the
gateway is the `now` recorded at line 112 — the wall-clock time at which
the cache was checked, before the request was dispatched — even when the
matching response is consumed only after cycling past other results. -/
theorem C2_amended (key : String) (now : Nat) (st : CacheState) (pre : List QEvent)
    (d : Payload) (dt : Nat) (rest : List QEvent)
    (hpre : ∀ e ∈ pre, other_item key e) :
    response_wait key now st (pre ++ QEvent.item key d dt :: rest) 0 =
        some (d, cache_put st key d now, elapsed_sum pre + dt)
    ∧ (cache_put st key d now).cache_timestamps.lookup key = some now := by
  constructor
  · rw [response_wait_skip key now st pre _ hpre 0]
    simp [response_wait]
  · simp [cache_put, List.lookup]

/-- C2 witness: the amended statement with one non-matching result
cycled before the match. -/
theorem C2_witness :
    response_wait "k" 7 ⟨[], []⟩
        ([QEvent.item "x" ⟨none, none⟩ 3] ++ QEvent.item "k" ⟨none, some [2]⟩ 4 :: []) 0 =
      some (⟨none, some [2]⟩, cache_put ⟨[], []⟩ "k" ⟨none, some [2]⟩ 7,
        elapsed_sum [QEvent.item "x" ⟨none, none⟩ 3] + 4)
    ∧ (cache_put ⟨[], []⟩ "k" ⟨none, some [2]⟩ 7).cache_timestamps.lookup "k" = some 7 :=
  C2_amended "k" 7 ⟨[], []⟩ [QEvent.item "x" ⟨none, none⟩ 3] ⟨none, some [2]⟩ 4 []
    (by
      intro e he
      simp only [List.mem_singleton] at he
      subst he
      show ("x" : String) ≠ "k"
      decide)

/-- C4 counterexample: with one non-matching result cycled for 20
seconds before an empty read, the call returns the timeout error only at
50 seconds — later than the 30-second timeout plus any epsilon below 20 —
and on a trace in which a non-matching result is always available the
loop is still running when the trace ends (each read restarts the
30-second timeout, so the call can block indefinitely). -/
theorem C4_counterexample :
    fetch_with_cache ⟨[], []⟩ "e" [] false 0
        [QEvent.item "other" ⟨none, none⟩ 20, QEvent.timeout] =
      some (TIMEOUT_ERROR, ⟨[], []⟩, 50, true)
    ∧ ¬(50 ≤ 30 + 19)
    ∧ response_wait "e_" 0 ⟨[], []⟩
        [QEvent.item "other" ⟨none, none⟩ 0, QEvent.item "other" ⟨none, none⟩ 0] 0 =
      none := by
  decide

/-- C4 amended: a starved fetch never raises: once a queue read finds
the queue empty it returns the error-shaped timeout result, 30 seconds
after that read began — that is, at 30 seconds plus however long was
spent cycling non-matching results, which is not bounded by
`timeout + epsilon`; and while every read keeps yielding a non-matching
result the loop does not return at all. -/
theorem C4_amended (key : String) (now : Nat) (st : CacheState)
    (pre rest events : List QEvent)
    (hpre : ∀ e ∈ pre, other_item key e) (hev : ∀ e ∈ events, other_item key e) :
    response_wait key now st (pre ++ QEvent.timeout :: rest) 0 =
        some (TIMEOUT_ERROR, st, elapsed_sum pre + 30)
    ∧ response_wait key now st events 0 = none := by
  constructor
  · rw [response_wait_skip key now st pre _ hpre 0]
    simp [response_wait]
  · exact response_wait_all_other key now st events hev 0

/-- C4 witness: the amended statement with one 20-second non-matching
read before the empty read, and a one-element all-non-matching trace. -/
theorem C4_witness :
    response_wait "k" 0 ⟨[], []⟩
        ([QEvent.item "j" ⟨none, none⟩ 20] ++ QEvent.timeout :: []) 0 =
      some (TIMEOUT_ERROR, ⟨[], []⟩, elapsed_sum [QEvent.item "j" ⟨none, none⟩ 20] + 30)
    ∧ response_wait "k" 0 ⟨[], []⟩ [QEvent.item "j" ⟨none, none⟩ 1] 0 = none :=
  C4_amended "k" 0 ⟨[], []⟩ [QEvent.item "j" ⟨none, none⟩ 20] [] [QEvent.item "j" ⟨none, none⟩ 1]
    (by
      intro e he
      simp only [List.mem_singleton] at he
      subst he
      show ("j" : String) ≠ "k"
      decide)
    (by
      intro e he
      simp only [List.mem_singleton] at he
      subst he
      show ("j" : String) ≠ "k"
      decide)

/-- C5 counterexample: a 200 response whose JSON body has neither an
`error` nor a `results` key (the claim's fourth kind) is pushed through
the worker unchanged — the surfaced payload has no `error` key, so this
kind is not normalized to a structure with an `error` key. -/
theorem C5_counterexample :
    err_kind (HttpOutcome.response 200 (Except.ok ⟨none, none⟩))
    ∧ worker_result (HttpOutcome.response 200 (Except.ok ⟨none, none⟩)) = ⟨none, none⟩
    ∧ (worker_result (HttpOutcome.response 200 (Except.ok ⟨none, none⟩))).error = none := by
  exact ⟨Or.inr ⟨⟨none, none⟩, rfl, Or.inr rfl⟩, by decide, by decide⟩

/-- C5 amended: transport errors and 4xx/5xx statuses are rewritten by
the worker's exception handler to `{error: message}`, but 2xx JSON
bodies pass through unchanged, so bodies that themselves carry an
`error` field or lack `results` are surfaced as-is; the four kinds
collapse only under the uniform usability check every caller applies
(error key present, or results missing or empty), which rejects all of
them. -/
theorem C5_amended :
    (∀ out, err_kind out → usable (worker_result out) = false)
    ∧ (∀ (status : Nat) (j : Payload), status < 400 →
        worker_result (HttpOutcome.response status (Except.ok j)) = j) := by
  constructor
  · intro out h
    cases out with
    | netError msg => simp [worker_result, usable]
    | response status body =>
        by_cases hs : 400 ≤ status
        · simp [worker_result, hs, usable]
        · rcases h with h | ⟨j, hj, herr⟩
          · exact absurd h hs
          · subst hj
            simp only [worker_result, if_neg hs]
            rcases herr with he | hr
            · obtain ⟨m, hm⟩ := Option.isSome_iff_exists.mp he
              simp [usable, hm]
            · simp [usable, hr]
  · intro status j hlt
    simp [worker_result, Nat.not_le.mpr hlt]

/-- C5 witness: the amended statement at a transport error and at a
pass-through 200 body. -/
theorem C5_witness :
    usable (worker_result (HttpOutcome.netError "connection refused")) = false
    ∧ worker_result (HttpOutcome.response 200 (Except.ok ⟨none, some [7]⟩)) =
        ⟨none, some [7]⟩ :=
  ⟨C5_amended.1 (HttpOutcome.netError "connection refused") trivial,
    C5_amended.2 200 ⟨none, some [7]⟩ (by decide)⟩

/-- C8 counterexample: when the caller's params already contain a
`limit` entry (here `"5"`), `fetch_all_pages` issues the page request
with that value, not with `limit = min(100, max_records)` (lines 146-147
only set the limit when absent), refuting the claim's universally
quantified "issues each page request with limit = min(100, max_records)". -/
theorem C8_counterexample :
    (fetch_all_pages gw_error "" [("limit", "5")] 250).2 =
      [[("limit", "5"), ("skip", "0")]]
    ∧ (([("limit", "5"), ("skip", "0")] : Params).lookup "limit") = some "5"
    ∧ ("5" : String) ≠ toString (min 100 250) := by
  decide

/-- C8 amended: `fetch_all_pages` sets `limit = min(100, max_records)`
on its page requests only when the caller's params carry no `limit`
entry (a caller-supplied limit is sent unchanged, while the short-page
check still compares against `min(100, max_records)`); with that proviso
the rest of the claim holds: requests start at offset 0 and advance by
the records received, the loop stops on reaching `max_records`, on a
short page, or on an error-shaped or empty result, the output is
truncated to `max_records`; with `max_records = 250` and 100 records per
page it makes 3 page requests at offsets 0, 100, 200 and returns exactly
250 records, and with 0 records on page 2 it stops after page 2 with
page 1's 100 records. -/
theorem C8_amended (gw : Params → Payload) (params : Params) (max_records : Nat)
    (h : params.any (fun p => p.1 == "limit") = false) :
    (∀ p ∈ (fetch_all_pages gw "" params max_records).2,
        p.lookup "limit" = some (toString (min 100 max_records)))
    ∧ (fetch_all_pages gw_pages100 "" [] 250).1.length = 250
    ∧ (fetch_all_pages gw_pages100 "" [] 250).2.map (fun p => p.lookup "skip") =
        [some "0", some "100", some "200"]
    ∧ (fetch_all_pages gw_empty_page2 "" [] 250).1.length = 100
    ∧ (fetch_all_pages gw_empty_page2 "" [] 250).2.length = 2 := by
  refine ⟨?_, by decide, by decide, by decide, by decide⟩
  intro p hp
  have hcur : (dict_set params "limit" (toString (min 100 max_records))).lookup "limit" =
      some (toString (min 100 max_records)) := by
    rw [lookup_dict_set]
    simp
  simp only [fetch_all_pages] at hp
  rw [if_neg (by simp [h])] at hp
  exact fetch_pages_limit_invariant gw max_records (min 100 max_records)
    (toString (min 100 max_records)) _ _ _ _ _ hcur
    (fun q hq => absurd hq (List.not_mem_nil q)) p hp

/-- C8 witness: the amended statement with no caller-supplied limit;
the first page request carries `limit = min(100, 250) = 100` and the
scenario returns 250 records. -/
theorem C8_witness :
    ([("limit", "100"), ("skip", "0")] : Params).lookup "limit" =
        some (toString (min 100 250))
    ∧ (fetch_all_pages gw_pages100 "" [] 250).1.length = 250 :=
  ⟨(C8_amended gw_pages100 [] 250 (by decide)).1 _ (by decide),
    (C8_amended gw_pages100 [] 250 (by decide)).2.1⟩

/-- C10 counterexample: with an API key configured and the caller
passing an empty params dict, the worker's `if not params: params = {}`
rebinds a fresh local dict, so the caller-visible mapping stays empty —
it does not contain an added `api_key` entry as the claim states. -/
theorem C10_counterexample :
    inject_api_key "K" [] = ([] : Params)
    ∧ (inject_api_key "K" []).lookup "api_key" = none := by
  decide

/-- C10 amended: with no API key configured a fetch leaves the caller's
params unchanged; with a key configured and a non-empty caller dict the
worker mutates that dict in place so the caller-visible mapping gains an
`api_key` entry (an empty or absent dict is replaced by a fresh local
one and stays unchanged); consequently in `fetch_all_pages` the cache
keys of pages after the first are computed over params that include the
API key, as the per-page params trace shows. -/
theorem C10_amended (api_key : String) (params : Params)
    (hk : api_key ≠ "") (hp : params ≠ []) :
    (∀ q : Params, inject_api_key "" q = q)
    ∧ (inject_api_key api_key params).lookup "api_key" = some api_key
    ∧ (fetch_all_pages gw_pages100 "K" [("limit", "10")] 250).2.map
        (fun p => p.lookup "api_key") = [none, some "K", some "K"] := by
  refine ⟨inject_api_key_no_key, ?_, by decide⟩
  simp only [inject_api_key, if_neg hk, if_neg hp]
  rw [lookup_dict_set]
  simp

/-- C10 witness: the amended statement at a concrete key and non-empty
params dict. -/
theorem C10_witness :
    inject_api_key "" [("limit", "10")] = [("limit", "10")]
    ∧ (inject_api_key "K" [("limit", "10")]).lookup "api_key" = some "K" :=
  ⟨(C10_amended "K" [("limit", "10")] (by decide) (by decide)).1 [("limit", "10")],
    (C10_amended "K" [("limit", "10")] (by decide) (by decide)).2.1⟩

end OpenFDA
